import Mathlib

/-!
# Verification of the tabelog crawl-and-extract pipeline

Shallow embedding of `src/restaurant_data_pipeline/tabelog.py`.

The HTTP transport, the HTML parser and the numeric-parsing routines of the
standard library are external collaborators (the spec treats them as such), so
they enter the model as data:

* a fetched listing page is represented by the HTTP status code together with
  the list of `a.list-rst__rst-name-target` anchors the parser would find in
  its body (each anchor reduced to its `href` attribute);
* a fetched detail page is represented by the status code together with a
  `DetailDoc`, which records exactly the query results the six extractors ask
  the parser for;
* `urllib.parse.urljoin`, `float(...)` and `int(...)` are fields of a `Lib`
  structure that the model is parametric over.

Python exceptions are modelled with `Except PyErr`: an operation that can
raise an exception past the function under consideration returns
`Except.error`.  `httpx.HTTPStatusError` is raised by `raise_for_status`
exactly when the status code is not a 2xx success.  Python floats are
modelled as exact rationals; none of the verified properties depend on
rounding, only on whether parsing succeeds.
-/

/-- Exceptions that can cross a function boundary in the embedded code. -/
inductive PyErr where
  /-- Exception `httpx.HTTPStatusError`, raised by `raise_for_status` on a non-2xx code. -/
  | httpStatusError (status : Nat)
  /-- Exception `AttributeError`, e.g. calling a method on `None`. -/
  | attributeError
  /-- Exception `ValueError`, raised by `float(...)` / `int(...)` on unparsable text. -/
  | valueError
  /-- any `httpx.RequestError`-style transport fault (timeout, connect error). -/
  | transportError
deriving DecidableEq, Repr

/-- Embeds `httpx.Response.is_success`: `raise_for_status` raises iff this is false. -/
def isSuccess (status : Nat) : Bool := 200 ≤ status && status < 300

/-- The external library collaborators the scraper calls into. -/
structure Lib where
  /-- Embeds `urllib.parse.urljoin`. -/
  urljoin : String → String → String
  /-- Embeds `float(s)`: `none` models a `ValueError`. -/
  pyFloat : String → Option Rat
  /-- Embeds `int(s)`: `none` models a `ValueError`. -/
  pyInt : String → Option Int

/-- Helper for `pySplit`: walk the characters, cutting at each separator. -/
def pySplitAux (sep : Char) : List Char → List Char → List String
  | [], cur => [String.mk cur]
  | c :: rest, cur =>
    if c = sep then String.mk cur :: pySplitAux sep rest []
    else pySplitAux sep rest (cur ++ [c])

/-- Python `s.split(sep)` for a one-character separator: keeps empty parts,
`"abc".split("?") == ["abc"]`, `"".split("?") == [""]`. -/
def pySplit (s : String) (sep : Char) : List String :=
  pySplitAux sep s.data []

/-- Embeds `RestaurantItem` (`TypedDict` in the source): one discovered candidate. -/
structure RestaurantItem where
  restaurant_id : Nat
  url : String
deriving DecidableEq, Repr

/-- One row appended to `data_list` by `Tabelog._scrape_item`.  In the
failure branch the Python dict simply lacks the content keys; `polars`
renders them as nulls, modelled here as `none`. -/
structure Record where
  restaurant_id : Nat
  url : String
  name : Option String
  genre : Option String
  score : Option Rat
  budget_of_lunch : Option String
  budget_of_dinner : Option String
  review_count : Option Int
  bookmark_count : Option Int
  status : Nat
  error : Option PyErr
deriving DecidableEq, Repr

/-- The `th` row whose text is `ジャンル`, as consulted by `_get_genre`:
`next_td = none` models `find_next_sibling("td")` returning `None`
(whereupon `.find("span")` raises `AttributeError`); `next_td = some x`
carries the result of `find("span")` on that `td`, where `x = some t`
means a truthy `span` tag with text `t` and `x = none` means the span is
missing or falsy (a bs4 `Tag` with no contents is falsy). -/
structure GenreTh where
  next_td : Option (Option String)
deriving DecidableEq, Repr

/-- One `p` element inside the `.rdheader-budget` block, as consulted by
`_get_budget`: `i_elm = some lbl` means `find("i")` found an `i` element
whose `get("aria-label")` is `lbl`; `span_elm` is the text of `find("span")`
when that returns a (possibly empty) span, `none` when it returns `None`. -/
structure BudgetP where
  i_elm : Option (Option String)
  span_elm : Option String
deriving DecidableEq, Repr

/-- A parsed detail page, reduced to the parser queries the extractors make.
Each field records the result of the corresponding selector:

* `display_name`: text of `select_one("h2.display-name")`, `none` if absent;
* `genre_th`: the `th` with text `ジャンル` found by `_get_genre`;
* `rating_val`: `none` when `find("b", class_="c-rating__val")` is `None` or
  falsy; `some x` otherwise, where `x` is the text of its truthy `span`
  child, `none` when that child is missing or falsy;
* `budget_block`: the `p` elements of `select_one(".rdheader-budget")`,
  `none` when the block is absent (so `select_one` returned `None`);
* `review_block` / `bookmark_block`: `some x` when the block is present,
  with `x` the text of its `em.num` element (absent: `none`). -/
structure DetailDoc where
  display_name : Option String
  genre_th : Option GenreTh
  rating_val : Option (Option String)
  budget_block : Option (List BudgetP)
  review_block : Option (Option String)
  bookmark_block : Option (Option String)
deriving DecidableEq, Repr

/-- Outcome of `self.client.get` on a listing page: the response status and
the anchors `find_all("a", class_="list-rst__rst-name-target")` would
extract from the body (each reduced to its `href` attribute, `none` when
missing), or a transport-level fault. -/
inductive ListingFetch where
  | response (status : Nat) (anchors : List (Option String))
  | transportFault (e : PyErr)
deriving DecidableEq, Repr

/-- Outcome of `self.client.get` on a detail page. -/
inductive DetailFetch where
  | response (status : Nat) (doc : DetailDoc)
  | transportFault (e : PyErr)
deriving DecidableEq, Repr

namespace Tabelog

/-- Embeds `Tabelog.UPPER_LIMIT`. -/
def UPPER_LIMIT : Int := 60

/-- Embeds `Tabelog.TEST_MODE_LENGTH`. -/
def TEST_MODE_LENGTH : Nat := 5

end Tabelog

/-- The state a `Tabelog` instance carries (minus the HTTP client, which is
an external collaborator). -/
structure Tabelog where
  base_url : String
  ua : String
  test_mode : Bool
  begin_page : Int
  limit : Int
  restaurant_id : Nat
deriving DecidableEq, Repr

/-- Python `x or d` for `x : Optional[int]`: `None` and `0` are falsy and
give the default. -/
def pyIntOr (x : Option Int) (d : Int) : Int :=
  match x with
  | none => d
  | some v => if v = 0 then d else v

namespace Tabelog

/-- Embeds `Tabelog.__init__`: `begin_page = skip or 1`, `limit = limit or 60`,
and the sequence counter starts at `0`. -/
def init (base_url ua : String) (test_mode : Bool) (skip limit : Option Int) :
    Tabelog :=
  { base_url := base_url
    ua := ua
    test_mode := test_mode
    begin_page := pyIntOr skip 1
    limit := pyIntOr limit UPPER_LIMIT
    restaurant_id := 0 }

/-- The `for soup_a in target_restaurants` loop of `_scrape_urls`: anchors
whose `href` is `None` or empty (falsy) are skipped; each appended item is
numbered with the current counter, which is then incremented.  Returns the
built list together with the final counter. -/
def buildItems : List (Option String) → Nat → List RestaurantItem × Nat
  | [], rid => ([], rid)
  | a :: rest, rid =>
    match a with
    | none => buildItems rest rid
    | some u =>
      if u = "" then buildItems rest rid
      else
        let (l, rid') := buildItems rest (rid + 1)
        ({ restaurant_id := rid, url := u } :: l, rid')

/-- Embeds `Tabelog._scrape_urls`, as a function of the fetch outcome for the page
URL.  A `raise_for_status` failure is caught and yields `[]`; an empty
anchor list yields `[]`; in test mode the anchor list is truncated to
`TEST_MODE_LENGTH` before the candidate-building loop.  A transport fault
is not caught and propagates. -/
def scrape_urls (fetch : ListingFetch) (test_mode : Bool) (rid : Nat) :
    Except PyErr (List RestaurantItem × Nat) :=
  match fetch with
  | .transportFault e => .error e
  | .response status anchors =>
    if isSuccess status then
      if anchors.isEmpty then .ok ([], rid)
      else
        let target_restaurants :=
          if test_mode then anchors.take TEST_MODE_LENGTH else anchors
        .ok (buildItems target_restaurants rid)
    else .ok ([], rid)

/-- The per-page URL built inside `Tabelog.scrape`:
`base_url = self.base_url.split("?")[0]`, `params = self.base_url.split("?")[-1]`,
`url = urljoin(base_url, str(page_num) + "/")`, then `f"{url}?{params}"`. -/
def page_url (lib : Lib) (t : Tabelog) (page_num : Int) : String :=
  let base := (pySplit t.base_url '?').headD ""
  let params := (pySplit t.base_url '?').getLastD ""
  lib.urljoin base (toString page_num ++ "/") ++ "?" ++ params

/-- The `while True` pagination loop of `Tabelog.scrape`.  `env` maps a URL
to its fetch outcome.  Returns the list of listing-page URLs fetched (in
order) and either the accumulated candidate list or the uncaught exception.

The source loop increments `page_num` and stops when `page_num > self.limit`;
here that bound is carried structurally as `gas = (limit - page_num).toNat`,
so the `gas = 0` branch is exactly the `page_num + 1 > self.limit` exit and
the recursive call at `page_num + 1` carries `(limit - (page_num + 1)).toNat`. -/
def walkGo (lib : Lib) (env : String → ListingFetch) (t : Tabelog) :
    Nat → Int → Nat → List RestaurantItem → List String →
    List String × Except PyErr (List RestaurantItem)
  | gas, page_num, rid, url_list, trace =>
    let url := page_url lib t page_num
    let trace' := trace ++ [url]
    match scrape_urls (env url) t.test_mode rid with
    | .error e => (trace', .error e)
    | .ok (restaurant_url_list, rid') =>
      if restaurant_url_list.isEmpty then (trace', .ok url_list)
      else if t.test_mode then (trace', .ok (url_list ++ restaurant_url_list))
      else
        match gas with
        | 0 => (trace', .ok (url_list ++ restaurant_url_list))
        | g + 1 => walkGo lib env t g (page_num + 1) rid'
            (url_list ++ restaurant_url_list) trace'

/-- The listing-walk phase of `Tabelog.scrape`: run the pagination loop from
`begin_page` with the instance's sequence counter and an empty accumulator. -/
def walk (lib : Lib) (env : String → ListingFetch) (t : Tabelog) :
    List String × Except PyErr (List RestaurantItem) :=
  walkGo lib env t (t.limit - t.begin_page).toNat t.begin_page t.restaurant_id [] []

/-- Embeds `Tabelog._get_store`: text of `select_one("h2.display-name")`, `None`
when the element is missing.  Cannot raise. -/
def get_store (bs : DetailDoc) : Option String :=
  bs.display_name

/-- Embeds `Tabelog._get_genre`: `None` when the `th` labelled `ジャンル` is
missing; otherwise `elm.find_next_sibling("td").find("span")` — when the
sibling `td` is missing, the chained `.find` is called on `None` and raises
`AttributeError`; otherwise the truthy span's text, `None` if no such span. -/
def get_genre (bs : DetailDoc) : Except PyErr (Option String) :=
  match bs.genre_th with
  | none => .ok none
  | some elm =>
    match elm.next_td with
    | none => .error .attributeError
    | some genre_tag => .ok genre_tag

/-- Embeds `Tabelog._get_score`: `None` when the rating tag or its span is missing
or falsy; `None` when the span text is the placeholder `-`; otherwise
`float(text)`, which raises `ValueError` on unparsable text. -/
def get_score (lib : Lib) (bs : DetailDoc) : Except PyErr (Option Rat) :=
  match bs.rating_val with
  | none => .ok none
  | some none => .ok none
  | some (some rating_score) =>
    if rating_score = "-" then .ok none
    else
      match lib.pyFloat rating_score with
      | some v => .ok (some v)
      | none => .error .valueError

/-- The `for p_elm in elm.find_all("p")` scan of `_get_budget`: skip
entries without an `i` element; on a matching `aria-label`, return the
span text when a span exists, otherwise keep scanning; fall through to
`None`. -/
def budgetScan : List BudgetP → Bool → Option String
  | [], _ => none
  | p_elm :: rest, is_lunch =>
    match p_elm.i_elm with
    | none => budgetScan rest is_lunch
    | some label =>
      if (label = some "Lunch" && is_lunch) || (label = some "Dinner" && !is_lunch) then
        match p_elm.span_elm with
        | some s => some s
        | none => budgetScan rest is_lunch
      else budgetScan rest is_lunch

/-- Embeds `Tabelog._get_budget`: `elm = select_one(".rdheader-budget")` is used
without a `None` guard, so a document lacking the budget block raises
`AttributeError` (`elm.find_all` on `None`); otherwise scan the `p`
entries. -/
def get_budget (bs : DetailDoc) (is_lunch : Bool) : Except PyErr (Option String) :=
  match bs.budget_block with
  | none => .error .attributeError
  | some elms => .ok (budgetScan elms is_lunch)

/-- Embeds `Tabelog._get_review_count`: `None` when the block or its `em.num` is
missing; otherwise `int(text)`, which raises `ValueError` on unparsable
text. -/
def get_review_count (lib : Lib) (bs : DetailDoc) : Except PyErr (Option Int) :=
  match bs.review_block with
  | none => .ok none
  | some none => .ok none
  | some (some txt) =>
    match lib.pyInt txt with
    | some v => .ok (some v)
    | none => .error .valueError

/-- Embeds `Tabelog._get_bookmark_count`: same shape as `_get_review_count` on the
`.rdheader-rating__hozon` block. -/
def get_bookmark_count (lib : Lib) (bs : DetailDoc) : Except PyErr (Option Int) :=
  match bs.bookmark_block with
  | none => .ok none
  | some none => .ok none
  | some (some txt) =>
    match lib.pyInt txt with
    | some v => .ok (some v)
    | none => .error .valueError

/-- One iteration of the `for url_dict in tqdm(url_list)` loop of
`Tabelog._scrape_item`.  A transport fault from `client.get` is not caught
and propagates.  `raise_for_status` failure (non-2xx) is caught locally and
yields a record with only the candidate fields, the status and the error —
the content keys are absent.  On success the body is parsed and the dict is
built field by field in source order, so an extractor's exception
propagates. -/
def scrape_item_step (lib : Lib) (env : String → DetailFetch)
    (url_dict : RestaurantItem) : Except PyErr Record :=
  match env url_dict.url with
  | .transportFault e => .error e
  | .response status bs =>
    if isSuccess status then
      match get_genre bs with
      | .error e => .error e
      | .ok genre =>
      match get_score lib bs with
      | .error e => .error e
      | .ok score =>
      match get_budget bs true with
      | .error e => .error e
      | .ok budget_of_lunch =>
      match get_budget bs false with
      | .error e => .error e
      | .ok budget_of_dinner =>
      match get_review_count lib bs with
      | .error e => .error e
      | .ok review_count =>
      match get_bookmark_count lib bs with
      | .error e => .error e
      | .ok bookmark_count =>
        .ok { restaurant_id := url_dict.restaurant_id
              url := url_dict.url
              name := get_store bs, genre := genre, score := score
              budget_of_lunch := budget_of_lunch
              budget_of_dinner := budget_of_dinner
              review_count := review_count, bookmark_count := bookmark_count
              status := status, error := none }
    else
      .ok { restaurant_id := url_dict.restaurant_id
            url := url_dict.url
            name := none, genre := none, score := none
            budget_of_lunch := none, budget_of_dinner := none
            review_count := none, bookmark_count := none
            status := status, error := some (.httpStatusError status) }

/-- Embeds `Tabelog._scrape_item`: process the candidates in order, appending one
row per candidate to `data_list`; an uncaught exception aborts the whole
batch (the DataFrame is only built after the loop), modelled by the
`Except` short-circuit. -/
def scrape_item (lib : Lib) (env : String → DetailFetch) :
    List RestaurantItem → Except PyErr (List Record)
  | [] => .ok []
  | url_dict :: rest =>
    match scrape_item_step lib env url_dict with
    | .error e => .error e
    | .ok data =>
      match scrape_item lib env rest with
      | .error e => .error e
      | .ok data_list => .ok (data :: data_list)

/-- Embeds `Tabelog.scrape`: run the listing walk, then hand the accumulated
candidate list, as a whole, to `_scrape_item`.  Returns the listing-page
URL trace alongside the outcome. -/
def scrape (lib : Lib) (listEnv : String → ListingFetch)
    (detailEnv : String → DetailFetch) (t : Tabelog) :
    List String × Except PyErr (List Record) :=
  let (trace, r) := walk lib listEnv t
  (trace,
    match r with
    | .error e => .error e
    | .ok url_list => scrape_item lib detailEnv url_list)

end Tabelog

/-- A concrete instantiation of the library collaborators, used to evaluate
the model on closed inputs: `urljoin` here is string append, which agrees
with `urllib.parse.urljoin` whenever the base ends in `/` and the suffix is
a relative segment (the shape the scraper always uses); the numeric parsers
accept a couple of fixed literals. -/
def stubLib : Lib :=
  { urljoin := fun base rel => base ++ rel
    pyFloat := fun s => if s = "3.5" then some (mkRat 7 2) else none
    pyInt := fun s => if s = "12" then some 12 else none }

deriving instance DecidableEq for Except

/-! ## Helper lemmas -/

/-- The candidate-building loop numbers the items it keeps with consecutive
ids starting at the incoming counter, and leaves the counter advanced by
the number of items kept. -/
theorem buildItems_spec (as : List (Option String)) :
    ∀ rid : Nat,
      (Tabelog.buildItems as rid).1.map (·.restaurant_id) =
        List.range' rid (Tabelog.buildItems as rid).1.length ∧
      (Tabelog.buildItems as rid).2 = rid + (Tabelog.buildItems as rid).1.length := by
  induction as with
  | nil => intro rid; simp [Tabelog.buildItems]
  | cons a rest ih =>
    intro rid
    match a with
    | none => simpa [Tabelog.buildItems] using ih rid
    | some u =>
      by_cases hu : u = ""
      · simpa [Tabelog.buildItems, hu] using ih rid
      · rcases hb : Tabelog.buildItems rest (rid + 1) with ⟨l, rid2⟩
        have h := ih (rid + 1)
        rw [hb] at h
        simp only at h
        simp [Tabelog.buildItems, hu, hb, List.range'_succ]
        exact ⟨h.1, by omega⟩

/-- Lemma: `_scrape_urls` returning normally yields consecutively numbered items
and the counter advanced accordingly. -/
theorem scrape_urls_ok_spec (f : ListingFetch) (tm : Bool) (rid rid' : Nat)
    (items : List RestaurantItem)
    (h : Tabelog.scrape_urls f tm rid = .ok (items, rid')) :
    items.map (·.restaurant_id) = List.range' rid items.length ∧
    rid' = rid + items.length := by
  cases f with
  | transportFault e => simp [Tabelog.scrape_urls] at h
  | response status anchors =>
    by_cases hs : isSuccess status
    · by_cases he : anchors.isEmpty
      · simp [Tabelog.scrape_urls, hs, he] at h
        obtain ⟨rfl, rfl⟩ := h
        simp
      · have hb := buildItems_spec
          (if tm then anchors.take Tabelog.TEST_MODE_LENGTH else anchors) rid
        simp [Tabelog.scrape_urls, hs, he] at h
        rw [h] at hb
        exact hb
    · simp [Tabelog.scrape_urls, hs] at h
      obtain ⟨rfl, rfl⟩ := h
      simp

/-- Any successful pagination walk extends the accumulator with items
numbered consecutively from the incoming counter. -/
theorem walkGo_ok_ids (lib : Lib) (env : String → ListingFetch) (t : Tabelog) :
    ∀ (gas : Nat) (p : Int) (rid : Nat) (acc : List RestaurantItem)
      (tr tr2 : List String) (res : List RestaurantItem),
      Tabelog.walkGo lib env t gas p rid acc tr = (tr2, .ok res) →
      ∃ xs, res = acc ++ xs ∧
        xs.map (·.restaurant_id) = List.range' rid xs.length := by
  intro gas
  induction gas with
  | zero =>
    intro p rid acc tr tr2 res h
    rw [Tabelog.walkGo] at h
    rcases hsc : Tabelog.scrape_urls (env (Tabelog.page_url lib t p))
        t.test_mode rid with e | ⟨items, rid'⟩ <;> rw [hsc] at h
    · simp at h
    · have hspec := scrape_urls_ok_spec _ _ _ _ _ hsc
      by_cases he : items.isEmpty
      · simp [he] at h
        obtain ⟨-, rfl⟩ := h
        exact ⟨[], by simp, by simp⟩
      · by_cases htm : t.test_mode <;>
          simp [he, htm] at h <;>
          obtain ⟨-, rfl⟩ := h <;>
          exact ⟨items, rfl, hspec.1⟩
  | succ g ih =>
    intro p rid acc tr tr2 res h
    rw [Tabelog.walkGo] at h
    rcases hsc : Tabelog.scrape_urls (env (Tabelog.page_url lib t p))
        t.test_mode rid with e | ⟨items, rid'⟩ <;> rw [hsc] at h
    · simp at h
    · have hspec := scrape_urls_ok_spec _ _ _ _ _ hsc
      by_cases he : items.isEmpty
      · simp [he] at h
        obtain ⟨-, rfl⟩ := h
        exact ⟨[], by simp, by simp⟩
      · by_cases htm : t.test_mode
        · simp [he, htm] at h
          obtain ⟨-, rfl⟩ := h
          exact ⟨items, rfl, hspec.1⟩
        · simp only [he, htm, if_false, Bool.false_eq_true] at h
          obtain ⟨xs, hres, hxs⟩ := ih _ _ _ _ _ _ h
          refine ⟨items ++ xs, by simp [hres], ?_⟩
          rw [List.map_append, hxs, hspec.1, hspec.2]
          rw [List.range'_append_1, List.length_append, Nat.add_comm]

/-- One harvester iteration either raises or produces a record that carries
the candidate's id and url, whose `error` is set exactly when the status is
a failure, and whose content fields are all absent when `error` is set. -/
theorem scrape_item_step_cases (lib : Lib) (env : String → DetailFetch)
    (it : RestaurantItem) :
    (∃ e, Tabelog.scrape_item_step lib env it = .error e) ∨
    (∃ r, Tabelog.scrape_item_step lib env it = .ok r ∧
      r.restaurant_id = it.restaurant_id ∧ r.url = it.url ∧
      (r.error.isSome ↔ isSuccess r.status = false) ∧
      (r.error.isSome → r.name = none ∧ r.genre = none ∧ r.score = none ∧
        r.budget_of_lunch = none ∧ r.budget_of_dinner = none ∧
        r.review_count = none ∧ r.bookmark_count = none)) := by
  rw [Tabelog.scrape_item_step]
  cases env it.url with
  | transportFault e => exact .inl ⟨e, rfl⟩
  | response status bs =>
    dsimp only
    by_cases hs : isSuccess status
    · rw [if_pos hs]
      rcases Tabelog.get_genre bs with e | genre
      · exact .inl ⟨e, rfl⟩
      rcases Tabelog.get_score lib bs with e | score
      · exact .inl ⟨e, rfl⟩
      rcases Tabelog.get_budget bs true with e | budget_of_lunch
      · exact .inl ⟨e, rfl⟩
      rcases Tabelog.get_budget bs false with e | budget_of_dinner
      · exact .inl ⟨e, rfl⟩
      rcases Tabelog.get_review_count lib bs with e | review_count
      · exact .inl ⟨e, rfl⟩
      rcases Tabelog.get_bookmark_count lib bs with e | bookmark_count
      · exact .inl ⟨e, rfl⟩
      exact .inr ⟨_, rfl, rfl, rfl, by simp [hs]⟩
    · rw [if_neg hs]
      exact .inr ⟨_, rfl, rfl, rfl, by simp_all⟩

/-- Inversion form of `scrape_item_step_cases`. -/
theorem scrape_item_step_spec (lib : Lib) (env : String → DetailFetch)
    (it : RestaurantItem) (r : Record)
    (h : Tabelog.scrape_item_step lib env it = .ok r) :
    r.restaurant_id = it.restaurant_id ∧ r.url = it.url ∧
    (r.error.isSome ↔ isSuccess r.status = false) ∧
    (r.error.isSome → r.name = none ∧ r.genre = none ∧ r.score = none ∧
      r.budget_of_lunch = none ∧ r.budget_of_dinner = none ∧
      r.review_count = none ∧ r.bookmark_count = none) := by
  rcases scrape_item_step_cases lib env it with ⟨e, he⟩ | ⟨r', hr', hP⟩
  · rw [he] at h; simp at h
  · rw [hr'] at h
    obtain rfl := Except.ok.inj h
    exact hP

/-! ## Concrete fixtures used by the witnesses -/

/-- A test-mode instance over a base URL with one query parameter. -/
def tTest : Tabelog := Tabelog.init "http://a/b/?x=1" "ua" true none none

/-- Listing environment: page 1 has eight anchors, two of them without a
usable `href`; any other URL answers 404. -/
def envEight : String → ListingFetch := fun u =>
  if u = "http://a/b/1/?x=1" then
    .response 200 [none, some "u1", some "u2", some "", some "u3", some "u4",
      some "u5", some "u6"]
  else .response 404 []

/-- A fully populated detail document (parsable score and counts under
`stubLib`). -/
def okDoc : DetailDoc :=
  { display_name := some "Store"
    genre_th := some ⟨some (some "Sushi")⟩
    rating_val := some (some "3.5")
    budget_block := some [⟨some (some "Lunch"), some "1000yen"⟩,
      ⟨some (some "Dinner"), some "5000yen"⟩]
    review_block := some (some "12")
    bookmark_block := some (some "12") }

/-- A detail document in which every selector comes back empty. -/
def emptyDoc : DetailDoc :=
  { display_name := none, genre_th := none, rating_val := none,
    budget_block := none, review_block := none, bookmark_block := none }

/-- Detail environment: `d0` succeeds with a full document, anything else
is a 404. -/
def envDetail : String → DetailFetch := fun u =>
  if u = "d0" then .response 200 okDoc
  else .response 404 emptyDoc

/-- The record the harvester produces for candidate `⟨0, "d0"⟩` under
`envDetail`. -/
def okRec : Record :=
  { restaurant_id := 0, url := "d0", name := some "Store",
    genre := some "Sushi", score := some (mkRat 7 2),
    budget_of_lunch := some "1000yen", budget_of_dinner := some "5000yen",
    review_count := some 12, bookmark_count := some 12,
    status := 200, error := none }

/-- The record the harvester produces for candidate `⟨1, "d1"⟩` under
`envDetail` (a 404). -/
def failRec : Record :=
  { restaurant_id := 1, url := "d1", name := none, genre := none,
    score := none, budget_of_lunch := none, budget_of_dinner := none,
    review_count := none, bookmark_count := none,
    status := 404, error := some (.httpStatusError 404) }

/-! ## Claims -/

/-- C1: whenever the Detail Harvester (`_scrape_item`) completes, it emits
exactly one Extracted Record per input candidate — none dropped, none
duplicated, even for items whose fetch fails with a non-success HTTP status
(those still complete, with an error record) — and the output preserves the
relative order of the input candidates. -/
theorem scrape_item_one_record_per_candidate (lib : Lib)
    (env : String → DetailFetch) :
    ∀ (cands : List RestaurantItem) (recs : List Record),
      Tabelog.scrape_item lib env cands = .ok recs →
      recs.length = cands.length ∧
      recs.map (fun r => (r.restaurant_id, r.url)) =
        cands.map (fun c => (c.restaurant_id, c.url)) := by
  intro cands
  induction cands with
  | nil =>
    intro recs h
    rw [Tabelog.scrape_item] at h
    obtain rfl := Except.ok.inj h.symm
    simp
  | cons c rest ih =>
    intro recs h
    rw [Tabelog.scrape_item] at h
    rcases h1 : Tabelog.scrape_item_step lib env c with e | r <;> rw [h1] at h
    · simp at h
    · rcases h2 : Tabelog.scrape_item lib env rest with e | rs <;> rw [h2] at h
      · simp at h
      · dsimp only at h
        obtain rfl := Except.ok.inj h.symm
        have hstep := scrape_item_step_spec lib env c r h1
        have hrest := ih rs h2
        simp [hstep.1, hstep.2.1, hrest.1, hrest.2]

/-- Witness for C1: a concrete two-candidate run, the second item a 404,
yields two records in candidate order. -/
theorem scrape_item_one_record_per_candidate_witness :
    ([okRec, failRec].length = [(⟨0, "d0"⟩ : RestaurantItem), ⟨1, "d1"⟩].length) ∧
    ([okRec, failRec].map (fun r => (r.restaurant_id, r.url)) =
      [(⟨0, "d0"⟩ : RestaurantItem), ⟨1, "d1"⟩].map
        (fun c => (c.restaurant_id, c.url))) :=
  scrape_item_one_record_per_candidate stubLib envDetail
    [⟨0, "d0"⟩, ⟨1, "d1"⟩] [okRec, failRec] (by decide)

/-- C3: every record emitted by the Detail Harvester has `error` set iff
its HTTP status is a non-success, has every content field absent whenever
`error` is set, and carries the sequence id and url of one of the input
candidates. -/
theorem record_error_iff_status_failure (lib : Lib)
    (env : String → DetailFetch) :
    ∀ (cands : List RestaurantItem) (recs : List Record),
      Tabelog.scrape_item lib env cands = .ok recs →
      ∀ r ∈ recs,
        (r.error.isSome ↔ isSuccess r.status = false) ∧
        (r.error.isSome → r.name = none ∧ r.genre = none ∧ r.score = none ∧
          r.budget_of_lunch = none ∧ r.budget_of_dinner = none ∧
          r.review_count = none ∧ r.bookmark_count = none) ∧
        ∃ c ∈ cands, r.restaurant_id = c.restaurant_id ∧ r.url = c.url := by
  intro cands
  induction cands with
  | nil =>
    intro recs h
    rw [Tabelog.scrape_item] at h
    obtain rfl := Except.ok.inj h.symm
    simp
  | cons c rest ih =>
    intro recs h
    rw [Tabelog.scrape_item] at h
    rcases h1 : Tabelog.scrape_item_step lib env c with e | r <;> rw [h1] at h
    · simp at h
    · rcases h2 : Tabelog.scrape_item lib env rest with e | rs <;> rw [h2] at h
      · simp at h
      · dsimp only at h
        obtain rfl := Except.ok.inj h.symm
        have hstep := scrape_item_step_spec lib env c r h1
        intro x hx
        rcases List.mem_cons.mp hx with rfl | hx'
        · exact ⟨hstep.2.2.1, hstep.2.2.2,
            ⟨c, List.mem_cons_self .., hstep.1, hstep.2.1⟩⟩
        · obtain ⟨hiff, habs, cc, hcc, hid, hurl⟩ := ih rs h2 x hx'
          exact ⟨hiff, habs, cc, List.mem_cons_of_mem _ hcc, hid, hurl⟩

/-- Witness for C3 at the concrete two-candidate run, instantiated at the
404 record. -/
theorem record_error_iff_status_failure_witness :
    (failRec.error.isSome ↔ isSuccess failRec.status = false) ∧
    (failRec.error.isSome → failRec.name = none ∧ failRec.genre = none ∧
      failRec.score = none ∧ failRec.budget_of_lunch = none ∧
      failRec.budget_of_dinner = none ∧ failRec.review_count = none ∧
      failRec.bookmark_count = none) ∧
    ∃ c ∈ [(⟨0, "d0"⟩ : RestaurantItem), ⟨1, "d1"⟩],
      failRec.restaurant_id = c.restaurant_id ∧ failRec.url = c.url :=
  record_error_iff_status_failure stubLib envDetail
    [⟨0, "d0"⟩, ⟨1, "d1"⟩] [okRec, failRec] (by decide) failRec (by decide)

/-- C2: starting from a freshly constructed `Tabelog`, the sequence ids
across the full candidate list returned by the pagination walk are unique
and form a contiguous ascending range starting at 0 (`List.range`),
continuing the counter across pages and regardless of skipped anchors. -/
theorem walk_ids_contiguous_from_zero (lib : Lib) (env : String → ListingFetch)
    (b ua : String) (tm : Bool) (skip lim : Option Int)
    (tr : List String) (cands : List RestaurantItem)
    (h : Tabelog.walk lib env (Tabelog.init b ua tm skip lim) = (tr, .ok cands)) :
    cands.map (·.restaurant_id) = List.range cands.length := by
  rw [Tabelog.walk] at h
  obtain ⟨xs, hres, hxs⟩ := walkGo_ok_ids lib env _ _ _ _ _ _ _ _ h
  simp only [List.nil_append] at hres
  subst hres
  rw [hxs, List.range_eq_range']
  rfl

/-- Witness for C2 at a concrete test-mode run: the three candidates kept
from the eight anchors are numbered `[0, 1, 2]`. -/
theorem walk_ids_contiguous_from_zero_witness :
    ([⟨0, "u1"⟩, ⟨1, "u2"⟩, ⟨2, "u3"⟩] : List RestaurantItem).map (·.restaurant_id) =
      List.range ([⟨0, "u1"⟩, ⟨1, "u2"⟩, ⟨2, "u3"⟩] : List RestaurantItem).length :=
  walk_ids_contiguous_from_zero stubLib envEight "http://a/b/?x=1" "ua" true
    none none ["http://a/b/1/?x=1"] [⟨0, "u1"⟩, ⟨1, "u2"⟩, ⟨2, "u3"⟩] (by decide)


/-- A detail document whose genre `th` row exists but has no following
`td` sibling. -/
def genreNoTdDoc : DetailDoc := { emptyDoc with genre_th := some ⟨none⟩ }

/-- Detail environment in which every fetch succeeds (status 200) but the
page lacks the `.rdheader-budget` block. -/
def envNoBudget : String → DetailFetch := fun _ => .response 200 emptyDoc

/-- C4 (code bug): on a parsed document with no `.rdheader-budget` element,
`_get_budget` does not yield an absent value — it calls `find_all` on
`None` and the `AttributeError` escapes, aborting the whole harvest; the
other extractors on the same document do yield absent values (the genre
extractor has the same flaw when the `th` has no `td` sibling). -/
theorem get_budget_raises_on_missing_block :
    Tabelog.get_budget emptyDoc true = .error .attributeError ∧
    Tabelog.get_budget emptyDoc false = .error .attributeError ∧
    Tabelog.get_genre genreNoTdDoc = .error .attributeError ∧
    Tabelog.get_store emptyDoc = none ∧
    Tabelog.get_genre emptyDoc = .ok none ∧
    Tabelog.get_score stubLib emptyDoc = .ok none ∧
    Tabelog.get_review_count stubLib emptyDoc = .ok none ∧
    Tabelog.get_bookmark_count stubLib emptyDoc = .ok none ∧
    Tabelog.scrape_item stubLib envNoBudget [⟨0, "nb"⟩] =
      .error .attributeError := by
  decide

/-- A detail document whose rating element's span text is the placeholder
`-`. -/
def dashDoc : DetailDoc := { emptyDoc with rating_val := some (some "-") }

/-- C9: `_get_score` returns absent when the rating text is exactly the
placeholder `-` (never `0.0`), absent when the rating element or its inner
span is missing or falsy, and otherwise hands the text to `float(...)`. -/
theorem get_score_dash_is_absent (lib : Lib) (bs : DetailDoc) :
    (bs.rating_val = some (some "-") → Tabelog.get_score lib bs = .ok none) ∧
    (bs.rating_val = none → Tabelog.get_score lib bs = .ok none) ∧
    (bs.rating_val = some none → Tabelog.get_score lib bs = .ok none) ∧
    (∀ txt, bs.rating_val = some (some txt) → txt ≠ "-" →
      Tabelog.get_score lib bs =
        (lib.pyFloat txt).elim (.error .valueError) (fun v => .ok (some v))) := by
  refine ⟨?_, ?_, ?_, ?_⟩
  · intro h; rw [Tabelog.get_score, h]; simp
  · intro h; rw [Tabelog.get_score, h]
  · intro h; rw [Tabelog.get_score, h]
  · intro txt h hne
    rw [Tabelog.get_score, h]
    dsimp only
    rw [if_neg hne]
    cases lib.pyFloat txt <;> rfl

/-- Witness for C9: the placeholder document yields an absent score under
the concrete library stub. -/
theorem get_score_dash_is_absent_witness :
    Tabelog.get_score stubLib dashDoc = .ok none :=
  (get_score_dash_is_absent stubLib dashDoc).1 rfl

/-- C5: a listing page whose fetch returns a non-success status does not
raise: `_scrape_urls` returns the same empty list a zero-listing page
would, and the pagination loop stops there, handing back exactly the
candidates accumulated from the earlier pages. -/
theorem listing_status_failure_ends_walk (lib : Lib)
    (env : String → ListingFetch) (t : Tabelog) (status : Nat)
    (anchors : List (Option String)) (gas : Nat) (p : Int) (rid : Nat)
    (acc : List RestaurantItem) (tr : List String)
    (hs : isSuccess status = false)
    (henv : env (Tabelog.page_url lib t p) = .response status anchors) :
    Tabelog.scrape_urls (.response status anchors) t.test_mode rid =
      .ok ([], rid) ∧
    Tabelog.walkGo lib env t gas p rid acc tr =
      (tr ++ [Tabelog.page_url lib t p], .ok acc) := by
  have h1 : Tabelog.scrape_urls (ListingFetch.response status anchors)
      t.test_mode rid = .ok ([], rid) := by
    rw [Tabelog.scrape_urls]
    dsimp only
    rw [if_neg (by simp [hs])]
  refine ⟨h1, ?_⟩
  rw [Tabelog.walkGo, henv, h1]
  simp

/-- Witness for C5: with page 2 answering 404, the loop returns the
accumulator untouched after fetching just that page. -/
theorem listing_status_failure_ends_walk_witness :
    (Tabelog.scrape_urls (.response 404 []) tTest.test_mode 7 =
      .ok ([], 7)) ∧
    Tabelog.walkGo stubLib envEight tTest 3 2 7 [⟨0, "u1"⟩] ["seen"] =
      ("seen" :: [Tabelog.page_url stubLib tTest 2], .ok [⟨0, "u1"⟩]) :=
  listing_status_failure_ends_walk stubLib envEight tTest 404 [] 3 2 7
    [⟨0, "u1"⟩] ["seen"] (by decide) (by decide)

/-- The pagination loop appends at most `gas + 1` URLs to the trace: one
for the page it fetches now and at most one per remaining unit of page
budget. -/
theorem walkGo_trace_length (lib : Lib) (env : String → ListingFetch)
    (t : Tabelog) :
    ∀ (gas : Nat) (p : Int) (rid : Nat) (acc : List RestaurantItem)
      (tr : List String),
      (Tabelog.walkGo lib env t gas p rid acc tr).1.length ≤
        tr.length + gas + 1 := by
  intro gas
  induction gas with
  | zero =>
    intro p rid acc tr
    rw [Tabelog.walkGo]
    rcases Tabelog.scrape_urls (env (Tabelog.page_url lib t p))
        t.test_mode rid with e | ⟨items, rid'⟩
    · simp
    · dsimp only
      by_cases he : items.isEmpty <;> by_cases htm : t.test_mode <;>
        simp [he, htm]
  | succ g ih =>
    intro p rid acc tr
    rw [Tabelog.walkGo]
    rcases Tabelog.scrape_urls (env (Tabelog.page_url lib t p))
        t.test_mode rid with e | ⟨items, rid'⟩
    · simp
    · dsimp only
      by_cases he : items.isEmpty
      · simp [he]
      · by_cases htm : t.test_mode
        · simp [he, htm]
        · simp only [he, htm, if_false, Bool.false_eq_true]
          have hih := ih (p + 1) rid' (acc ++ items)
            (tr ++ [Tabelog.page_url lib t p])
          simp only [List.length_append, List.length_cons,
            List.length_nil] at hih ⊢
          omega

/-- C6: `scrape` fetches at most `limit` listing pages (whenever the
configured start page and limit are at least 1); with `begin_page = 3` and
`limit = 3` it fetches exactly the one page 3 and stops because of the
limit, whatever that page contains. -/
theorem scrape_fetches_at_most_limit_pages (lib : Lib)
    (lenv : String → ListingFetch) (denv : String → DetailFetch)
    (t : Tabelog) :
    (1 ≤ t.begin_page → 1 ≤ t.limit →
      ((Tabelog.scrape lib lenv denv t).1.length : Int) ≤ t.limit) ∧
    (t.begin_page = 3 → t.limit = 3 →
      (Tabelog.scrape lib lenv denv t).1 = [Tabelog.page_url lib t 3]) := by
  rcases hw : Tabelog.walk lib lenv t with ⟨tr, r⟩
  have hfst : (Tabelog.scrape lib lenv denv t).1 = tr := by
    rw [Tabelog.scrape, hw]
  constructor
  · intro hb hl
    have hlen := walkGo_trace_length lib lenv t
      (t.limit - t.begin_page).toNat t.begin_page t.restaurant_id [] []
    rw [Tabelog.walk] at hw
    rw [hw] at hlen
    simp only [List.length_nil] at hlen
    rw [hfst]
    omega
  · intro hb3 hl3
    rw [Tabelog.walk, hb3, hl3] at hw
    norm_num at hw
    rw [Tabelog.walkGo] at hw
    rcases hsc : Tabelog.scrape_urls (lenv (Tabelog.page_url lib t 3))
        t.test_mode t.restaurant_id with e | ⟨items, rid'⟩ <;> rw [hsc] at hw
    · simp only [List.nil_append] at hw
      injection hw with h1 h2
      rw [hfst, ← h1]
    · dsimp only at hw
      by_cases he : items.isEmpty
      · simp only [he, if_true, List.nil_append] at hw
        injection hw with h1 h2
        rw [hfst, ← h1]
      · by_cases htm : t.test_mode
        · simp only [he, htm, if_true, if_false, Bool.false_eq_true,
            List.nil_append] at hw
          injection hw with h1 h2
          rw [hfst, ← h1]
        · simp only [he, htm, if_false, Bool.false_eq_true,
            List.nil_append] at hw
          injection hw with h1 h2
          rw [hfst, ← h1]

/-- A production-mode instance with `skip = 3` and `limit = 3`. -/
def tPage3 : Tabelog :=
  Tabelog.init "http://a/b/?x=1" "ua" false (some 3) (some 3)

/-- Witness for C6: the start-page-3 / limit-3 run fetches exactly page 3,
and its page count (1) is within the limit. -/
theorem scrape_fetches_at_most_limit_pages_witness :
    ((Tabelog.scrape stubLib envEight envDetail tPage3).1.length : Int) ≤
      tPage3.limit ∧
    (Tabelog.scrape stubLib envEight envDetail tPage3).1 =
      [Tabelog.page_url stubLib tPage3 3] :=
  ⟨(scrape_fetches_at_most_limit_pages stubLib envEight envDetail tPage3).1
      (by decide) (by decide),
   (scrape_fetches_at_most_limit_pages stubLib envEight envDetail tPage3).2
      (by decide) (by decide)⟩

/-- When every anchor in the list has a usable (non-`None`, non-empty)
`href`, the candidate-building loop keeps them all. -/
theorem buildItems_length_of_usable :
    ∀ (as : List (Option String)) (rid : Nat),
      (∀ a ∈ as, a.getD "" ≠ "") →
      (Tabelog.buildItems as rid).1.length = as.length := by
  intro as
  induction as with
  | nil => intro rid h; simp [Tabelog.buildItems]
  | cons a rest ih =>
    intro rid h
    match a with
    | none =>
      have hno := h none (by simp)
      simp at hno
    | some u =>
      have hu : u ≠ "" := by simpa using h (some u) (by simp)
      rcases hb : Tabelog.buildItems rest (rid + 1) with ⟨l, rid2⟩
      have hr := ih (rid + 1) (fun x hx => h x (by simp [hx]))
      rw [hb] at hr
      simp only at hr
      simp [Tabelog.buildItems, hu, hb, hr]

/-- Listing environment: page 1 answers 200 with eight anchors, the first
of which has no `href`. -/
def envSevenOfEight : String → ListingFetch := fun u =>
  if u = "http://a/b/1/?x=1" then
    .response 200 [none, some "u1", some "u2", some "u3", some "u4",
      some "u5", some "u6", some "u7"]
  else .response 404 []

/-- Counterexample to C7 as stated: in test mode, a first listing page with
8 anchors (fetched successfully) yields only 4 candidates, because the
anchor list is truncated to `TEST_MODE_LENGTH` *before* anchors without a
usable link target are dropped — the claimed "exactly 5" fails. -/
theorem test_mode_eight_anchors_not_five :
    tTest.test_mode = true ∧
    envSevenOfEight (Tabelog.page_url stubLib tTest tTest.begin_page) =
      .response 200 [none, some "u1", some "u2", some "u3", some "u4",
        some "u5", some "u6", some "u7"] ∧
    isSuccess 200 = true ∧
    ([none, some "u1", some "u2", some "u3", some "u4", some "u5",
      some "u6", some "u7"] : List (Option String)).length = 8 ∧
    Tabelog.walk stubLib envSevenOfEight tTest =
      ([Tabelog.page_url stubLib tTest tTest.begin_page],
        .ok [⟨0, "u1"⟩, ⟨1, "u2"⟩, ⟨2, "u3"⟩, ⟨3, "u4"⟩]) ∧
    ([⟨0, "u1"⟩, ⟨1, "u2"⟩, ⟨2, "u3"⟩, ⟨3, "u4"⟩] :
      List RestaurantItem).length ≠ 5 := by
  decide

/-- C7 (amended): in test mode, for every first listing page fetched
successfully with at least 8 anchors whose first `TEST_MODE_LENGTH`
anchors each carry a usable link target, the walk produces exactly 5
candidates and no second listing page is fetched. -/
theorem test_mode_five_candidates (lib : Lib) (env : String → ListingFetch)
    (t : Tabelog) (status : Nat) (anchors : List (Option String))
    (htm : t.test_mode = true)
    (henv : env (Tabelog.page_url lib t t.begin_page) =
      .response status anchors)
    (hs : isSuccess status = true)
    (hlen : 8 ≤ anchors.length)
    (husable : ∀ a ∈ anchors.take Tabelog.TEST_MODE_LENGTH, a.getD "" ≠ "") :
    ∃ cands, Tabelog.walk lib env t =
      ([Tabelog.page_url lib t t.begin_page], .ok cands) ∧
      cands.length = 5 := by
  have hne : anchors.isEmpty = false := by
    cases anchors with
    | nil => simp at hlen
    | cons a as => rfl
  have hsc : Tabelog.scrape_urls (.response status anchors) t.test_mode
      t.restaurant_id =
      .ok (Tabelog.buildItems (anchors.take Tabelog.TEST_MODE_LENGTH)
        t.restaurant_id) := by
    rw [Tabelog.scrape_urls]
    dsimp only
    simp [hs, hne, htm]
  rcases hb : Tabelog.buildItems (anchors.take Tabelog.TEST_MODE_LENGTH)
      t.restaurant_id with ⟨items, rid'⟩
  have hlen5 : items.length = 5 := by
    have h1 := buildItems_length_of_usable
      (anchors.take Tabelog.TEST_MODE_LENGTH) t.restaurant_id husable
    rw [hb] at h1
    simp only at h1
    rw [h1, List.length_take]
    simp only [Tabelog.TEST_MODE_LENGTH]
    omega
  have hne2 : items.isEmpty = false := by
    cases items with
    | nil => simp at hlen5
    | cons a as => rfl
  refine ⟨items, ?_, hlen5⟩
  rw [Tabelog.walk, Tabelog.walkGo, henv, hsc, hb]
  dsimp only
  simp [hne2, htm]

/-- Listing environment: page 1 answers 200 with eight anchors, all of
them with usable hrefs. -/
def envEightUsable : String → ListingFetch := fun u =>
  if u = "http://a/b/1/?x=1" then
    .response 200 [some "u1", some "u2", some "u3", some "u4", some "u5",
      some "u6", some "u7", some "u8"]
  else .response 404 []

/-- Witness for the amended C7 at a concrete eight-anchor page. -/
theorem test_mode_five_candidates_witness :
    ∃ cands, Tabelog.walk stubLib envEightUsable tTest =
      ([Tabelog.page_url stubLib tTest tTest.begin_page], .ok cands) ∧
      cands.length = 5 :=
  test_mode_five_candidates stubLib envEightUsable tTest 200
    [some "u1", some "u2", some "u3", some "u4", some "u5", some "u6",
      some "u7", some "u8"]
    (by decide) (by decide) (by decide) (by decide) (by decide)

/-- Every URL in the trace produced by the pagination loop is either one of
the URLs already in the incoming trace or a page URL built by `page_url`. -/
theorem walkGo_trace_mem (lib : Lib) (env : String → ListingFetch)
    (t : Tabelog) :
    ∀ (gas : Nat) (p : Int) (rid : Nat) (acc : List RestaurantItem)
      (tr : List String) (u : String),
      u ∈ (Tabelog.walkGo lib env t gas p rid acc tr).1 →
      u ∈ tr ∨ ∃ n : Int, u = Tabelog.page_url lib t n := by
  intro gas
  induction gas with
  | zero =>
    intro p rid acc tr u hu
    rw [Tabelog.walkGo] at hu
    rcases hsc : Tabelog.scrape_urls (env (Tabelog.page_url lib t p))
        t.test_mode rid with e | ⟨items, rid'⟩ <;> rw [hsc] at hu <;>
      dsimp only at hu
    · simp at hu
      rcases hu with h | h
      · exact .inl h
      · exact .inr ⟨p, by simp [h]⟩
    · by_cases he : items.isEmpty
      · simp [he] at hu
        rcases hu with h | h
        · exact .inl h
        · exact .inr ⟨p, by simp [h]⟩
      · by_cases htm : t.test_mode <;> simp [he, htm] at hu <;>
          rcases hu with h | h
        · exact .inl h
        · exact .inr ⟨p, by simp [h]⟩
        · exact .inl h
        · exact .inr ⟨p, by simp [h]⟩
  | succ g ih =>
    intro p rid acc tr u hu
    rw [Tabelog.walkGo] at hu
    rcases hsc : Tabelog.scrape_urls (env (Tabelog.page_url lib t p))
        t.test_mode rid with e | ⟨items, rid'⟩ <;> rw [hsc] at hu <;>
      dsimp only at hu
    · simp at hu
      rcases hu with h | h
      · exact .inl h
      · exact .inr ⟨p, by simp [h]⟩
    · by_cases he : items.isEmpty
      · simp [he] at hu
        rcases hu with h | h
        · exact .inl h
        · exact .inr ⟨p, by simp [h]⟩
      · by_cases htm : t.test_mode
        · simp [he, htm] at hu
          rcases hu with h | h
          · exact .inl h
          · exact .inr ⟨p, by simp [h]⟩
        · simp only [he, htm, if_false, Bool.false_eq_true] at hu
          rcases ih (p + 1) rid' (acc ++ items)
              (tr ++ [Tabelog.page_url lib t p]) u hu with h | h
          · rw [List.mem_append] at h
            rcases h with h2 | h2
            · exact .inl h2
            · exact .inr ⟨p, by simpa using h2⟩
          · exact .inr h

/-- Joins fragments back with `?` separators (used to state what the
original query string of a URL is). -/
def joinQM : List String → String
  | [] => ""
  | [s] => s
  | s :: rest => s ++ "?" ++ joinQM rest

/-- The spec's notion of "the original query parameters of the base listing
URL": everything after the *first* `?`, or `none` when the URL has no query
part.  This is the yardstick the code is compared against; the code itself
uses `split("?")[-1]`. -/
def specQueryString (u : String) : Option String :=
  match pySplit u '?' with
  | [] => none
  | [_] => none
  | _ :: rest => some (joinQM rest)

/-- A test-mode instance whose base URL's query string itself contains a
`?`. -/
def tTwoQ : Tabelog := Tabelog.init "http://a/b/?x=1?y=2" "ua" true none none

/-- A listing environment in which every fetch answers 404. -/
def env404 : String → ListingFetch := fun _ => .response 404 []

/-- Counterexample to C8 as stated: for a base listing URL whose query
string contains a `?`, the walker's fetched URL carries only the part
after the *last* `?` (`split("?")[-1]`), not the original query string —
the fetched URL differs from the base path joined with the page number
plus the original query parameters. -/
theorem query_params_counterexample :
    specQueryString tTwoQ.base_url = some "x=1?y=2" ∧
    Tabelog.walk stubLib env404 tTwoQ = (["http://a/b/1/?y=2"], .ok []) ∧
    ¬ ("http://a/b/1/?y=2" =
        stubLib.urljoin "http://a/b/" (toString (1 : Int) ++ "/") ++ "?" ++
          "x=1?y=2") := by
  decide

/-- C8 (amended): for every base listing URL containing exactly one `?`,
each listing URL the walk fetches is the base path joined with a page
number, with the base URL's original query string appended unchanged — the
same query string on every page of the run. -/
theorem page_urls_preserve_query (lib : Lib) (env : String → ListingFetch)
    (t : Tabelog) (a b : String)
    (h2 : pySplit t.base_url '?' = [a, b]) :
    specQueryString t.base_url = some b ∧
    ∀ u ∈ (Tabelog.walk lib env t).1, ∃ n : Int,
      u = lib.urljoin a (toString n ++ "/") ++ "?" ++ b := by
  constructor
  · rw [specQueryString, h2]
    rfl
  · intro u hu
    rw [Tabelog.walk] at hu
    rcases walkGo_trace_mem lib env t _ _ _ _ _ u hu with h | ⟨n, rfl⟩
    · simp at h
    · refine ⟨n, ?_⟩
      rw [Tabelog.page_url, h2]
      rfl

/-- Witness for the amended C8: the concrete single-`?` base URL run; its
one fetched page URL carries the query `x=1` after the joined path. -/
theorem page_urls_preserve_query_witness :
    specQueryString tTest.base_url = some "x=1" ∧
    ∀ u ∈ (Tabelog.walk stubLib envEight tTest).1, ∃ n : Int,
      u = stubLib.urljoin "http://a/b/" (toString n ++ "/") ++ "?" ++ "x=1" :=
  page_urls_preserve_query stubLib envEight tTest "http://a/b/" "x=1"
    (by decide)

/-- C10: passing `skip = 0` or `limit = 0` to the constructor behaves
identically to omitting the argument — `begin_page` falls back to 1 and
`limit` to `UPPER_LIMIT = 60` (falsy values are replaced by defaults), so
no caller can obtain a zero start page or zero page limit. -/
theorem init_treats_zero_as_default (b ua : String) (tm : Bool) :
    (∀ lim, Tabelog.init b ua tm (some 0) lim = Tabelog.init b ua tm none lim) ∧
    (∀ skip, Tabelog.init b ua tm skip (some 0) =
      Tabelog.init b ua tm skip none) ∧
    (Tabelog.init b ua tm (some 0) (some 0)).begin_page = 1 ∧
    (Tabelog.init b ua tm (some 0) (some 0)).limit = Tabelog.UPPER_LIMIT ∧
    Tabelog.UPPER_LIMIT = 60 ∧
    (∀ skip lim, (Tabelog.init b ua tm skip lim).begin_page ≠ 0 ∧
      (Tabelog.init b ua tm skip lim).limit ≠ 0) := by
  have h : ∀ (x : Option Int) (d : Int), d ≠ 0 → pyIntOr x d ≠ 0 := by
    intro x d hd
    match x with
    | none => exact hd
    | some v =>
      by_cases hv : v = 0
      · simp [pyIntOr, hv]
        exact hd
      · simp [pyIntOr, hv]
  refine ⟨fun lim => rfl, fun skip => rfl, rfl, rfl, rfl, fun skip lim => ?_⟩
  exact ⟨h skip 1 (by decide), h lim Tabelog.UPPER_LIMIT (by decide)⟩
